import Mathlib

/-!
Shallow embedding of the usage-metering core of the Tara voice-calling
client: the useUserUsage hook (load, debit, call gating, time formatting),
the subscription grant in useAuth, the VoiceInterface 1-second timer with
its 10-second debit cadence and its exhaustion poll, and the client-side
payment check in the razorpay module.

Numeric fields read from the per-user Firestore document are modelled as
Option Int, distinguishing an undefined field from a number. The source
uses two different fallbacks on such fields and they differ at 0: the JS
truthiness fallback (x || d) and the strict check
(x !== undefined ? x : d); both are modelled explicitly.
-/

namespace Tara

/-- Value of the JS expression x || d for an optionally present numeric
field: d when the field is undefined or 0 (both falsy in JS), the stored
value otherwise. -/
def jsOr (x : Option Int) (d : Int) : Int :=
  match x with
  | none => d
  | some v => if v = 0 then d else v

/-- Fields of the per-user Firestore document that the usage core reads and
writes. Every field may be absent. The server-assigned timestamp field is
not modelled; no claim depends on it. -/
structure UserDoc where
  total_conversation_seconds : Option Int
  remaining : Option Int
  plan : Option String
deriving DecidableEq, Repr

/-- The remote store for one user: the document, or absent. -/
abbrev Store := Option UserDoc

/-- Free-trial allotment: 20 minutes in seconds. -/
def FREE_LIMIT_SECONDS : Int := 20 * 60

/-- The in-memory usage cache built by the useUserUsage hook. -/
structure UserUsage where
  total_conversation_seconds : Int
  remaining_seconds : Int
  remaining_minutes : Int
  remaining_hours : Int
deriving DecidableEq, Repr

/-- Translation of loadUserUsage: reads the document and builds the cached
usage. A present document is read with total_conversation_seconds || 0 and
the strict check remaining !== undefined (the loader comments this strict
check as a fix over the falsy one); an absent document yields the
free-trial defaults without writing anything. Math.floor of a real
quotient is Int.fdiv. -/
def loadUserUsage (s : Store) : UserUsage :=
  match s with
  | some userData =>
      let totalSeconds := jsOr userData.total_conversation_seconds 0
      let remainingSeconds := userData.remaining.getD FREE_LIMIT_SECONDS
      { total_conversation_seconds := totalSeconds
        remaining_seconds := remainingSeconds
        remaining_minutes := Int.fdiv remainingSeconds 60
        remaining_hours := Int.fdiv remainingSeconds 3600 }
  | none =>
      { total_conversation_seconds := 0
        remaining_seconds := FREE_LIMIT_SECONDS
        remaining_minutes := 20
        remaining_hours := 0 }

/-- Translation of updateUserUsage: one read-modify-write debit of
callDurationSeconds. On an existing document the current values are read
with the JS || fallback, the new total adds the delta, the new remaining
is Math.max(0, current - delta), and updateDoc leaves the other fields
(plan) in place. On a missing document setDoc creates it carrying only the
usage fields. -/
def updateUserUsage (callDurationSeconds : Int) (s : Store) : Store :=
  match s with
  | some userData =>
      let currentUsage := jsOr userData.total_conversation_seconds 0
      let currentRemaining := jsOr userData.remaining FREE_LIMIT_SECONDS
      let newUsage := currentUsage + callDurationSeconds
      let newRemaining := max 0 (currentRemaining - callDurationSeconds)
      some { userData with
              total_conversation_seconds := some newUsage
              remaining := some newRemaining }
  | none =>
      some { total_conversation_seconds := some callDurationSeconds
             remaining := some (max 0 (FREE_LIMIT_SECONDS - callDurationSeconds))
             plan := none }

/-- A sequence of updateUserUsage debits applied to a store, oldest first. -/
def applyUsageSeq (ds : List Int) (s : Store) : Store :=
  ds.foldl (fun acc d => updateUserUsage d acc) s

/-- The remaining field stored for the user, when document and field exist. -/
def storeRemaining (s : Store) : Option Int :=
  s.bind UserDoc.remaining

/-- The balance updateUserUsage debits from: the stored remaining read
through the JS || fallback, or FREE_LIMIT_SECONDS for an absent document. -/
def currentRemainingOf (s : Store) : Int :=
  match s with
  | some userData => jsOr userData.remaining FREE_LIMIT_SECONDS
  | none => FREE_LIMIT_SECONDS

/-- Translation of canStartCall: false without cached usage, otherwise the
test remaining_seconds > 0. -/
def canStartCall (usage : Option UserUsage) : Bool :=
  match usage with
  | none => false
  | some u => decide (0 < u.remaining_seconds)

/-- JS padStart with target length 2 and pad character the digit zero. -/
def padStart2 (s : String) : String :=
  if 2 ≤ s.length then s else String.mk (List.replicate (2 - s.length) '0') ++ s

/-- Translation of formatRemainingTime: MM:SS of the cached remaining
seconds, the constant 00:00 without cached usage. JS Math.floor division is
Int.fdiv and the JS remainder operator is Int.tmod. -/
def formatRemainingTime (usage : Option UserUsage) : String :=
  match usage with
  | none => "00:00"
  | some u =>
      let minutes := Int.fdiv u.remaining_seconds 60
      let seconds := Int.tmod u.remaining_seconds 60
      padStart2 (toString minutes) ++ ":" ++ padStart2 (toString seconds)

/-- Translation of formatRemainingTimeDetailed: HH:MM:SS of the cached
remaining seconds, the constant 00:00:00 without cached usage. -/
def formatRemainingTimeDetailed (usage : Option UserUsage) : String :=
  match usage with
  | none => "00:00:00"
  | some u =>
      let hours := Int.fdiv u.remaining_seconds 3600
      let minutes := Int.fdiv (Int.tmod u.remaining_seconds 3600) 60
      let seconds := Int.tmod u.remaining_seconds 60
      padStart2 (toString hours) ++ ":" ++ padStart2 (toString minutes)
        ++ ":" ++ padStart2 (toString seconds)

/-- Translation of the switch in updateSubscription: the fixed price table
mapping the paid price to the plan name and the granted seconds. -/
def priceToPlan (price : Int) : Option (String × Int) :=
  if price = 249 then some ("Basic", 40 * 60)
  else if price = 1150 then some ("Pro", 200 * 60)
  else if price = 2250 then some ("Premium", 400 * 60)
  else none

/-- Translation of updateSubscription: without a signed-in user, or with a
price outside the table, it fails and leaves the store alone; otherwise
updateDoc overwrites plan and remaining with the granted values and resets
total_conversation_seconds to 0, failing without a write when the document
is absent (updateDoc rejects then). Returns the success flag together with
the resulting store. -/
def updateSubscription (hasUser : Bool) (price : Int) (s : Store) : Bool × Store :=
  if hasUser = false then (false, s)
  else
    match priceToPlan price with
    | none => (false, s)
    | some (planName, remainingSeconds) =>
        match s with
        | none => (false, s)
        | some userDoc =>
            (true, some { userDoc with
                           plan := some planName
                           remaining := some remainingSeconds
                           total_conversation_seconds := some 0 })

/-- A JavaScript value, as far as truthiness is concerned. -/
inductive JsVal where
  | undef
  | nullv
  | boolv (b : Bool)
  | num (n : Int)
  | str (s : String)
deriving DecidableEq, Repr

/-- JS truthiness of a value. -/
def truthy : JsVal → Bool
  | .undef => false
  | .nullv => false
  | .boolv b => b
  | .num n => decide (n ≠ 0)
  | .str s => decide (s ≠ "")

/-- Value of the JS expression a && b: a when a is falsy, b otherwise. -/
def jsAnd (a b : JsVal) : JsVal :=
  if truthy a then b else a

/-- The two fields of the gateway response that verifyPayment looks at. -/
structure RazorpayResponse where
  razorpay_payment_id : JsVal
  razorpay_order_id : JsVal
deriving DecidableEq, Repr

/-- Translation of verifyPayment: the value of the JS expression
response.razorpay_payment_id && response.razorpay_order_id, with no other
check of any kind. -/
def verifyPayment (response : RazorpayResponse) : JsVal :=
  jsAnd response.razorpay_payment_id response.razorpay_order_id

/-- The VoiceInterface state driven by the 1-second timer effect: the
elapsed conversation seconds, whether the interval is running, and the
updateUserUsage deltas the timer has fired so far, oldest first. -/
structure SessionState where
  conversationTime : Nat
  isTimerRunning : Bool
  debits : List Nat
deriving DecidableEq, Repr

/-- One 1-second timer callback: increments conversationTime and, exactly
when the new time is a multiple of 10, fires updateUserUsage 10 without
awaiting the write (recorded by appending the delta to debits). -/
def tick (s : SessionState) : SessionState :=
  if s.isTimerRunning then
    let newTime := s.conversationTime + 1
    { s with
        conversationTime := newTime
        debits := if newTime % 10 = 0 then s.debits ++ [10] else s.debits }
  else s

/-- The session state after k timer callbacks. -/
def ticks : Nat → SessionState → SessionState
  | 0, s => s
  | k + 1, s => tick (ticks k s)

/-- The session state right after onConnect: clock reset to 0, timer on. -/
def connectState : SessionState :=
  { conversationTime := 0, isTimerRunning := true, debits := [] }

/-- The implicit debit checkpoint: each fired debit advances it by 10 the
moment it fires, so it stands at 10 times the number of fired debits. -/
def lastDebitCheckpoint (s : SessionState) : Nat :=
  10 * s.debits.length

/-- The observable outcome of one startCall invocation. -/
inductive StartCallOutcome where
  | checkingTime
  | showSubscription
  | sessionStartAttempted
deriving DecidableEq, Repr

/-- Translation of the gating at the top of startCall: while the usage
cache is loading or still null it stops at the transient
checking-your-remaining-time notice; with a cache that fails canStartCall
it opens the subscription modal; only otherwise does it go on to start the
external session. -/
def startCall (isUsageLoading : Bool) (usage : Option UserUsage) : StartCallOutcome :=
  if isUsageLoading || usage.isNone then .checkingTime
  else if canStartCall usage = false then .showSubscription
  else .sessionStartAttempted

/-- Translation of the error path of loadUserUsage: a failed load only
logs, leaving the previous cache (null before a first successful load) in
place; a successful load installs the freshly computed usage. -/
def loadUserUsageResult (loadFails : Bool) (s : Store) (cache : Option UserUsage) :
    Option UserUsage :=
  if loadFails then cache else some (loadUserUsage s)

/-- Combined model of an active call for the exhaustion scenario: the
store, the cached usage, the elapsed seconds and whether the external
session is still connected. One simStep is one second during which the
timer effect runs (debiting 10 on each multiple of 10, the write and the
cache reload completing within that second) and the 1-second exhaustion
poll then inspects the cached remaining, force-ending the call (endCall)
when it is not positive. -/
structure CallSim where
  elapsed : Nat
  connected : Bool
  store : Store
  usage : Option UserUsage
deriving DecidableEq, Repr

/-- One second of an active call, as described on CallSim. After endCall
the state no longer changes (the interval is cleared). -/
def simStep (c : CallSim) : CallSim :=
  if c.connected = false then c
  else
    let elapsed := c.elapsed + 1
    let store := if elapsed % 10 = 0 then updateUserUsage 10 c.store else c.store
    let usage := if elapsed % 10 = 0 then some (loadUserUsage store) else c.usage
    let connected :=
      match usage with
      | some u => if u.remaining_seconds ≤ 0 then false else true
      | none => true
    { elapsed := elapsed, connected := connected, store := store, usage := usage }

/-- The call state after k seconds. -/
def runSim : Nat → CallSim → CallSim
  | 0, c => c
  | k + 1, c => runSim k (simStep c)

/-- A store holding a free-trial user whose remaining balance is 15
seconds. -/
def store15 : Store :=
  some { total_conversation_seconds := some 0
         remaining := some 15
         plan := some "Free Trial" }

/-- An active call just connected against store15, cache freshly loaded. -/
def sim15 : CallSim :=
  { elapsed := 0, connected := true, store := store15
    usage := some (loadUserUsage store15) }

/-- An existing document whose remaining balance stands at 0. -/
def docZero : UserDoc :=
  { total_conversation_seconds := some 1200
    remaining := some 0
    plan := some "Free Trial" }

/-- C1: applying the positive deltas 1200 then 10 with updateUserUsage from
an absent record stores total_conversation_seconds 1210 but remaining 1190
rather than max 0 (1200 - 1210) = 0: the debit path reads the current
balance with the falsy fallback remaining || FREE_LIMIT_SECONDS, so the
stored 0 left by the first debit is treated as absent and the free-trial
balance is resurrected. -/
theorem updateUserUsage_resurrects_balance_after_exhaustion :
    applyUsageSeq [1200, 10] none
      = some { total_conversation_seconds := some 1210
               remaining := some 1190
               plan := none } := by
  rfl

/-- C2: a single updateUserUsage debit of 10 on an existing record whose
stored remaining is 0 writes remaining 1190, strictly above the balance
stored before the call, so the stored balance increases outside any plan
grant. -/
theorem updateUserUsage_increases_remaining_from_zero :
    updateUserUsage 10 (some docZero)
      = some { total_conversation_seconds := some 1210
               remaining := some 1190
               plan := some "Free Trial" } := by
  rfl

/-- C3 counterexample: with a stored remaining balance of 15 seconds the
call is still connected after 15 elapsed seconds, so endCall is not invoked
at elapsedSeconds = 15 or sooner: the 1-second poll only observes the
cached balance, and the cache refreshes only at 10-second debits. -/
theorem call_still_connected_at_15 :
    (runSim 15 sim15).connected = true ∧ (runSim 15 sim15).elapsed = 15 := by
  exact ⟨rfl, rfl⟩

/-- C3 amended: with a stored remaining balance of 15 seconds the call
survives second 19 and is force-ended during second 20, the second whose
10-second debit drives the stored and cached remaining to 0; exhaustion is
therefore detected within 1 second of the cached balance reaching 0, but
only after the next debit checkpoint, not at elapsedSeconds = 15. -/
theorem call_force_ended_at_20 :
    (runSim 19 sim15).connected = true
  ∧ (runSim 20 sim15).connected = false
  ∧ storeRemaining (runSim 20 sim15).store = some 0 := by
  exact ⟨rfl, rfl, rfl⟩

/-- C4: every remaining value written by updateUserUsage, whether the
record existed or was created on first debit, is non-negative, and a debit
at least as large as the balance it debits from stores exactly 0. -/
theorem updateUserUsage_remaining_nonneg (d : Int) (s : Store) (r : Int)
    (h : storeRemaining (updateUserUsage d s) = some r) :
    0 ≤ r ∧ (currentRemainingOf s ≤ d → r = 0) := by
  cases s with
  | none =>
      simp [updateUserUsage, storeRemaining] at h
      simp only [currentRemainingOf]
      omega
  | some userData =>
      simp [updateUserUsage, storeRemaining] at h
      simp only [currentRemainingOf]
      omega

/-- C4 witness: at the concrete debit 1300 on an absent record the written
remaining is 0, which is non-negative and exactly the clamp value. -/
theorem updateUserUsage_remaining_nonneg_witness :
    0 ≤ (0 : Int) ∧ (0 : Int) = 0 :=
  ⟨(updateUserUsage_remaining_nonneg 1300 none 0 rfl).1,
   (updateUserUsage_remaining_nonneg 1300 none 0 rfl).2 (by decide)⟩

/-- C5: canStartCall is false on an unknown cache, holds on a present cache
exactly when remaining_seconds is positive, and in particular is false at 0
remaining seconds and true at 1 and at FREE_LIMIT_SECONDS. -/
theorem canStartCall_gate :
    canStartCall none = false
  ∧ (∀ u : UserUsage, canStartCall (some u) = true ↔ 0 < u.remaining_seconds)
  ∧ canStartCall (some ⟨0, 0, 0, 0⟩) = false
  ∧ canStartCall (some ⟨0, 1, 0, 0⟩) = true
  ∧ canStartCall (some ⟨0, FREE_LIMIT_SECONDS, 20, 0⟩) = true := by
  refine ⟨rfl, fun u => ?_, rfl, rfl, rfl⟩
  simp [canStartCall]

/-- Auxiliary invariant for the timer model: from connectState the timer
stays running, the clock counts the callbacks, and the fired debits are one
entry of 10 per positive multiple of 10 reached. -/
theorem ticks_connectState_spec (k : Nat) :
    (ticks k connectState).isTimerRunning = true
  ∧ (ticks k connectState).conversationTime = k
  ∧ (ticks k connectState).debits = List.replicate (k / 10) 10 := by
  induction k with
  | zero => exact ⟨rfl, rfl, rfl⟩
  | succ k ih =>
      obtain ⟨hrun, htime, hdeb⟩ := ih
      by_cases h : (k + 1) % 10 = 0
      · have hdiv : (k + 1) / 10 = k / 10 + 1 := by omega
        refine ⟨?_, ?_, ?_⟩ <;>
          simp [ticks, tick, hrun, htime, hdeb, h, hdiv, List.replicate_succ']
      · have hdiv : (k + 1) / 10 = k / 10 := by omega
        refine ⟨?_, ?_, ?_⟩ <;>
          simp [ticks, tick, hrun, htime, hdeb, h, hdiv]

/-- C6: after k seconds of an active call the timer has fired exactly one
updateUserUsage 10 debit per positive multiple of 10 reached (each advances
the implicit checkpoint by 10 the moment it fires, without awaiting the
write), the checkpoint stands at 10 * (k / 10), and the un-flushed delta
between the clock and the checkpoint never exceeds 9. -/
theorem timer_debit_cadence (k : Nat) :
    (ticks k connectState).conversationTime = k
  ∧ (ticks k connectState).debits = List.replicate (k / 10) 10
  ∧ lastDebitCheckpoint (ticks k connectState) = 10 * (k / 10)
  ∧ k - lastDebitCheckpoint (ticks k connectState) ≤ 9 := by
  obtain ⟨hrun, htime, hdeb⟩ := ticks_connectState_spec k
  have hcp : lastDebitCheckpoint (ticks k connectState) = 10 * (k / 10) := by
    simp [lastDebitCheckpoint, hdeb]
  refine ⟨htime, hdeb, hcp, ?_⟩
  omega

/-- C7: updateSubscription maps price 249 to plan Basic with 2400 granted
seconds, 1150 to Pro with 12000 and 2250 to Premium with 24000, each grant
unconditionally overwriting remaining on every existing record and
resetting total_conversation_seconds to 0; any price outside the table
fails and leaves the store unchanged; and after the Pro grant on a record
whose remaining is 0 a reload makes canStartCall true. -/
theorem updateSubscription_grant_table (doc doc0 : UserDoc) (p : Int)
    (h249 : p ≠ 249) (h1150 : p ≠ 1150) (h2250 : p ≠ 2250) :
    updateSubscription true 249 (some doc)
      = (true, some { doc with plan := some "Basic", remaining := some 2400,
                               total_conversation_seconds := some 0 })
  ∧ updateSubscription true 1150 (some doc)
      = (true, some { doc with plan := some "Pro", remaining := some 12000,
                               total_conversation_seconds := some 0 })
  ∧ updateSubscription true 2250 (some doc)
      = (true, some { doc with plan := some "Premium", remaining := some 24000,
                               total_conversation_seconds := some 0 })
  ∧ updateSubscription true p (some doc) = (false, some doc)
  ∧ canStartCall
      (some (loadUserUsage
        (updateSubscription true 1150
          (some { doc0 with remaining := some 0 })).2)) = true := by
  refine ⟨rfl, rfl, rfl, ?_, rfl⟩
  simp [updateSubscription, priceToPlan, h249, h1150, h2250]

/-- C7 witness: the grant table behaves as stated on the concrete record
docZero and on the out-of-table price 999. -/
theorem updateSubscription_grant_table_witness :
    updateSubscription true 249 (some docZero)
      = (true, some { docZero with plan := some "Basic", remaining := some 2400,
                                   total_conversation_seconds := some 0 })
  ∧ updateSubscription true 1150 (some docZero)
      = (true, some { docZero with plan := some "Pro", remaining := some 12000,
                                   total_conversation_seconds := some 0 })
  ∧ updateSubscription true 2250 (some docZero)
      = (true, some { docZero with plan := some "Premium", remaining := some 24000,
                                   total_conversation_seconds := some 0 })
  ∧ updateSubscription true 999 (some docZero) = (false, some docZero)
  ∧ canStartCall
      (some (loadUserUsage
        (updateSubscription true 1150
          (some { docZero with remaining := some 0 })).2)) = true :=
  updateSubscription_grant_table docZero docZero 999
    (by decide) (by decide) (by decide)

/-- C8: both formatting helpers depend only on the cached remaining_seconds
field; a null cache formats as 00:00 and 00:00:00, 0 remaining seconds as
00:00, 725 as 12:05 and 3725 in detailed form as 01:02:05, every field zero
padded to two digits by division and remainder base 60 and 3600. -/
theorem formatRemainingTime_spec :
    formatRemainingTime none = "00:00"
  ∧ formatRemainingTimeDetailed none = "00:00:00"
  ∧ formatRemainingTime (some ⟨0, 0, 0, 0⟩) = "00:00"
  ∧ formatRemainingTime (some ⟨0, 725, 12, 0⟩) = "12:05"
  ∧ formatRemainingTimeDetailed (some ⟨0, 3725, 62, 1⟩) = "01:02:05"
  ∧ (∀ t r m h : Int,
      formatRemainingTime (some ⟨t, r, m, h⟩)
        = formatRemainingTime (some ⟨0, r, 0, 0⟩))
  ∧ (∀ t r m h : Int,
      formatRemainingTimeDetailed (some ⟨t, r, m, h⟩)
        = formatRemainingTimeDetailed (some ⟨0, r, 0, 0⟩)) := by
  exact ⟨rfl, rfl, rfl, rfl, rfl, fun t r m h => rfl, fun t r m h => rfl⟩

/-- C9: while the usage cache is loading or still null, including after a
failed load that left the initial null cache in place, startCall stops at
the transient checking-your-remaining-time notice, and an external session
start is only ever attempted with a loaded cache passing canStartCall. -/
theorem startCall_blocks_unknown_balance
    (isUsageLoading l : Bool) (usage u : Option UserUsage) (s : Store)
    (h : isUsageLoading = true ∨ usage = none)
    (hstart : startCall l u = .sessionStartAttempted) :
    startCall isUsageLoading usage = .checkingTime
  ∧ startCall false (loadUserUsageResult true s none) = .checkingTime
  ∧ l = false
  ∧ canStartCall u = true := by
  refine ⟨?_, rfl, ?_, ?_⟩
  · rcases h with h | h
    · subst h; rfl
    · subst h; cases isUsageLoading <;> rfl
  · cases l with
    | false => rfl
    | true => simp [startCall] at hstart
  · cases l with
    | false =>
        cases u with
        | none => simp [startCall] at hstart
        | some v =>
            cases hc : canStartCall (some v) with
            | false => simp [startCall, hc] at hstart
            | true => rfl
    | true => simp [startCall] at hstart

/-- C9 witness: at the concrete inputs of a loading cache, a failed load
over an empty store, and a successful start on a full free-trial cache, the
gating behaves as stated. -/
theorem startCall_blocks_unknown_balance_witness :
    startCall true none = .checkingTime
  ∧ startCall false (loadUserUsageResult true none none) = .checkingTime
  ∧ false = false
  ∧ canStartCall (some ⟨0, 1200, 20, 0⟩) = true :=
  startCall_blocks_unknown_balance true false none (some ⟨0, 1200, 20, 0⟩) none
    (Or.inl rfl) rfl

/-- C10: verifyPayment returns a truthy value exactly when both
razorpay_payment_id and razorpay_order_id are truthy and a falsy value
otherwise, performing no other verification of the response. -/
theorem verifyPayment_truthiness (response : RazorpayResponse) :
    truthy (verifyPayment response)
      = (truthy response.razorpay_payment_id
          && truthy response.razorpay_order_id) := by
  simp only [verifyPayment, jsAnd]
  cases h : truthy response.razorpay_payment_id <;> simp [h]

end Tara
